import Mathlib

/-!
Verification development for the Trimet batched streaming ETL pipeline.

The definitions below are a shallow embedding of the Python sources:
  - src/Project_part2/validation.py        (class Validation)
  - src/Project_part2/Gtransformation.py   (classes Transformation, TripInfoBuilder)
  - src/Project_part2/subcriber.py         (classes DatabaseHandler, PubSubProcessor)
  - src/Project_part3/subscriber3_stopevent.py
        (classes StopEventCleaner, StopEventPipelineHandler)

Python scalar values are modelled by `PyVal` (int, float, str, None); floats
are modelled exactly as rationals since every arithmetic step the pipeline
performs on the inputs considered here (subtraction, division, comparison)
is exact on the values involved.  Python dicts delivered by the queue are
modelled as association lists.  Exceptions are modelled with `Except`.
-/

deriving instance DecidableEq for Except

namespace Trimet

/-- A Python scalar value: int, float (as exact rational), str, or None. -/
inductive PyVal where
  | vint (n : ℤ)
  | vfloat (q : ℚ)
  | vstr (s : String)
  | vnone
deriving DecidableEq, Repr

/-- Python `==` on scalars: ints and floats compare numerically equal
(`50 == 50.0` is `True` in Python); strings compare by content;
`None == None` is `True`; values of unrelated kinds are unequal. -/
def PyVal.pyEq : PyVal → PyVal → Bool
  | .vint a, .vint b => decide (a = b)
  | .vint a, .vfloat b => decide ((a : ℚ) = b)
  | .vfloat a, .vint b => decide (a = (b : ℚ))
  | .vfloat a, .vfloat b => decide (a = b)
  | .vstr a, .vstr b => decide (a = b)
  | .vnone, .vnone => true
  | _, _ => false

theorem PyVal.pyEq_refl (v : PyVal) : v.pyEq v = true := by
  cases v <;> simp [PyVal.pyEq]

/-- Python `str()` of a scalar.  For a float with integral value the result
is the digits followed by `.0` (for example `str(0.0) = "0.0"`), so it is
never equal to the string of an int; the repr of a non-integral float is
approximated by the rational's repr, which likewise never collides with an
int's digits.  The pipeline only ever compares the result with `"0"`. -/
def PyVal.pyStr : PyVal → String
  | .vint n => toString n
  | .vfloat q => if q.den = 1 then toString q.num ++ ".0" else toString q
  | .vstr s => s
  | .vnone => "None"

/-- Python `int()` conversion, `none` standing for a raised
`ValueError`/`TypeError`: ints pass through, floats truncate toward zero,
strings parse an optional sign followed by digits, `None` raises. -/
def PyVal.pyInt : PyVal → Option ℤ
  | .vint n => some n
  | .vfloat q => some (q.num.tdiv (q.den : ℤ))
  | .vstr s =>
      let t := s.trim
      let core := if t.startsWith "-" || t.startsWith "+" then t.drop 1 else t
      if core.length > 0 && core.all Char.isDigit then
        let mag : ℤ := core.foldl (fun acc c => acc * 10 + (c.toNat - 48 : ℤ)) 0
        some (if t.startsWith "-" then -mag else mag)
      else none
  | .vnone => none

/-- A raw record as delivered by the queue: a Python dict of field → scalar,
modelled as an association list (keys unique in practice; lookup takes the
first binding). -/
abbrev Record := List (String × PyVal)

/-- Dict lookup: `record[k]` when present, `none` when the key is absent. -/
def getField : Record → String → Option PyVal
  | [], _ => none
  | (k, v) :: rest, key => if k = key then some v else getField rest key

/-- Python `k in record`. -/
def hasField (r : Record) (k : String) : Bool := (getField r k).isSome

/-- Python `record.get(k, d)`. -/
def getDefault (r : Record) (k : String) (d : PyVal) : PyVal :=
  match getField r k with
  | some v => v
  | none => d

/-- Error outcome of running one validation check: an `AssertionError`
carrying the logging category tag of the failing check, a `KeyError` from a
missing dict key, or a `TypeError` from comparing a non-numeric value. -/
inductive VError where
  | fail (tag : String)
  | keyError
  | typeError
deriving DecidableEq, Repr

/-- Reads `record[k]` as an expression: `KeyError` when the key is absent. -/
def getItem (r : Record) (k : String) : Except VError PyVal :=
  match getField r k with
  | some v => .ok v
  | none => .error .keyError

/-- Reads `record[k]` and uses it numerically: `KeyError` when absent,
`TypeError` when the value is not an int or float. -/
def getNum (r : Record) (k : String) : Except VError ℚ :=
  match getField r k with
  | none => .error .keyError
  | some (.vint n) => .ok (n : ℚ)
  | some (.vfloat q) => .ok q
  | some _ => .error .typeError

/-- Embeds `Validation._validate_required_fields`: first rejects when any of the
seven required fields is missing, then per field rejects `None` values and
wrong primitive types (int for trip and vehicle ids, str for the operating
date, int-or-float for the numeric fields).  Tag `required`. -/
def validate_required_fields (r : Record) : Except VError Unit :=
  let names := ["EVENT_NO_TRIP", "OPD_DATE", "ACT_TIME", "VEHICLE_ID",
    "GPS_LATITUDE", "GPS_LONGITUDE", "METERS"]
  if names.any (fun f => !(hasField r f)) then .error (.fail "required")
  else
    let typeOk : String → PyVal → Bool := fun f v =>
      match f, v with
      | _, .vnone => false
      | "EVENT_NO_TRIP", .vint _ => true
      | "OPD_DATE", .vstr _ => true
      | "ACT_TIME", .vint _ => true
      | "ACT_TIME", .vfloat _ => true
      | "VEHICLE_ID", .vint _ => true
      | "GPS_LATITUDE", .vint _ => true
      | "GPS_LATITUDE", .vfloat _ => true
      | "GPS_LONGITUDE", .vint _ => true
      | "GPS_LONGITUDE", .vfloat _ => true
      | "METERS", .vint _ => true
      | "METERS", .vfloat _ => true
      | _, _ => false
    if names.all (fun f => match getField r f with
        | some v => typeOk f v
        | none => false) then .ok ()
    else .error (.fail "required")

/-- Embeds `Validation._gps_validator`: latitude must lie in [45.2, 45.7],
longitude in [-124.0, -122.0], and both absolute values must be at least 1
(sentinel near-zero coordinates rejected).  Tag `GPS`. -/
def gps_validator (r : Record) : Except VError Unit :=
  match getNum r "GPS_LATITUDE", getNum r "GPS_LONGITUDE" with
  | .error e, _ => .error e
  | .ok _, .error e => .error e
  | .ok lat, .ok lon =>
      if 45.2 ≤ lat ∧ lat ≤ 45.7 then
        if -124.0 ≤ lon ∧ lon ≤ -122.0 then
          if 1 ≤ |lat| ∧ 1 ≤ |lon| then .ok ()
          else .error (.fail "GPS")
        else .error (.fail "GPS")
      else .error (.fail "GPS")

/-- Embeds `Validation._validate_speed_plausibility`: only when a `SPEED` field is
present, it must be in [0, 45].  Tag `Speed`. -/
def validate_speed_plausibility (r : Record) : Except VError Unit :=
  if hasField r "SPEED" then
    match getNum r "SPEED" with
    | .error e => .error e
    | .ok s =>
        if 0 ≤ s then
          if s ≤ 45 then .ok () else .error (.fail "Speed")
        else .error (.fail "Speed")
  else .ok ()

/-- Embeds `Validation._validate_vehicle_data`: vehicle id positive, odometer in
[0, 1000000].  Tag `Vehicle`. -/
def validate_vehicle_data (r : Record) : Except VError Unit :=
  match getNum r "VEHICLE_ID" with
  | .error e => .error e
  | .ok vid =>
      if 0 < vid then
        match getNum r "METERS" with
        | .error e => .error e
        | .ok m =>
            if 0 ≤ m then
              if m ≤ 1000000 then .ok () else .error (.fail "Vehicle")
            else .error (.fail "Vehicle")
      else .error (.fail "Vehicle")

/-- Embeds `Validation._check_geographic_jump`: `validate_records` calls it
without a previous position (`last_latlon=None`), so the body is a no-op. -/
def check_geographic_jump (_r : Record) : Except VError Unit := .ok ()

/-- Embeds `Validation._validate_temporal_data`: activity time non-negative.
Tag `Time`. -/
def validate_temporal_data (r : Record) : Except VError Unit :=
  match getNum r "ACT_TIME" with
  | .error e => .error e
  | .ok t => if 0 ≤ t then .ok () else .error (.fail "Time")

/-- The breadcrumb dedup key `(VEHICLE_ID, EVENT_NO_TRIP, EVENT_NO_STOP,
ACT_TIME, METERS)` of raw record values. -/
abbrev DedupKey := PyVal × PyVal × PyVal × PyVal × PyVal

/-- Python tuple equality on dedup keys (componentwise `==`). -/
def keyEq (a b : DedupKey) : Bool :=
  a.1.pyEq b.1 && a.2.1.pyEq b.2.1 && a.2.2.1.pyEq b.2.2.1 &&
    a.2.2.2.1.pyEq b.2.2.2.1 && a.2.2.2.2.pyEq b.2.2.2.2

/-- Python `key in set`, with set modelled as a list. -/
def keyMem (k : DedupKey) (s : List DedupKey) : Bool := s.any (keyEq k)

/-- Embeds `Validation._duplicates_check`: builds the dedup key from five direct
dict accesses (each can raise `KeyError`; in particular `EVENT_NO_STOP` is
not among the required fields), rejects when the key was already seen in
the validator's lifetime set, otherwise records it.  Tag `Duplicate`. -/
def duplicates_check (st : List DedupKey) (r : Record) :
    Except VError (List DedupKey) :=
  match getItem r "VEHICLE_ID" with
  | .error e => .error e
  | .ok v1 =>
  match getItem r "EVENT_NO_TRIP" with
  | .error e => .error e
  | .ok v2 =>
  match getItem r "EVENT_NO_STOP" with
  | .error e => .error e
  | .ok v3 =>
  match getItem r "ACT_TIME" with
  | .error e => .error e
  | .ok v4 =>
  match getItem r "METERS" with
  | .error e => .error e
  | .ok v5 =>
      let key : DedupKey := (v1, v2, v3, v4, v5)
      if keyMem key st then .error (.fail "Duplicate")
      else .ok (key :: st)

/-- The body of `Validation.validate_records`'s `try` block: the seven
checks in source order, short-circuiting on the first error; on success
returns the updated dedup set. -/
def run_validation (st : List DedupKey) (r : Record) :
    Except VError (List DedupKey) :=
  match validate_required_fields r with
  | .error e => .error e
  | .ok _ =>
  match gps_validator r with
  | .error e => .error e
  | .ok _ =>
  match validate_speed_plausibility r with
  | .error e => .error e
  | .ok _ =>
  match validate_vehicle_data r with
  | .error e => .error e
  | .ok _ =>
  match check_geographic_jump r with
  | .error e => .error e
  | .ok _ =>
  match validate_temporal_data r with
  | .error e => .error e
  | .ok _ => duplicates_check st r

/-- Embeds `Validation.validate_records`: runs the checks, catching only
`AssertionError` (the `.fail` constructor) as a `False` outcome; a
`KeyError` or `TypeError` propagates to the caller uncaught. -/
def validate_records (st : List DedupKey) (r : Record) :
    Except VError (Bool × List DedupKey) :=
  match run_validation st r with
  | .ok st' => .ok (true, st')
  | .error (.fail _) => .ok (false, st)
  | .error e => .error e

/-! ### Dates: `datetime.strptime(s, "%d%b%Y")` and weekday names -/

/-- Month number of a three-letter abbreviation, case-insensitively, as
`%b` accepts. -/
def monthOfAbbrev (s : String) : Option ℕ :=
  match String.map Char.toUpper s with
  | "JAN" => some 1 | "FEB" => some 2 | "MAR" => some 3 | "APR" => some 4
  | "MAY" => some 5 | "JUN" => some 6 | "JUL" => some 7 | "AUG" => some 8
  | "SEP" => some 9 | "OCT" => some 10 | "NOV" => some 11 | "DEC" => some 12
  | _ => none

def digitsToNat (cs : List Char) : ℕ :=
  cs.foldl (fun acc c => acc * 10 + (c.toNat - 48)) 0

def isLeapYear (y : ℕ) : Bool :=
  (y % 4 = 0 && y % 100 ≠ 0) || y % 400 = 0

def daysInMonth (y m : ℕ) : ℕ :=
  if m = 2 then (if isLeapYear y then 29 else 28)
  else if m = 4 ∨ m = 6 ∨ m = 9 ∨ m = 11 then 30 else 31

/-- Days since 1970-01-01 of a proleptic-Gregorian civil date with year at
least 1 (the only years `datetime` accepts). -/
def daysFromCivil (y m d : ℕ) : ℤ :=
  let y' : ℤ := if m ≤ 2 then (y : ℤ) - 1 else (y : ℤ)
  let era : ℤ := y' / 400
  let yoe : ℤ := y' - era * 400
  let mp : ℤ := ((m : ℤ) + 9) % 12
  let doy : ℤ := (153 * mp + 2) / 5 + (d : ℤ) - 1
  let doe : ℤ := yoe * 365 + yoe / 4 - yoe / 100 + doy
  era * 146097 + doe - 719468

/-- Embeds `datetime.strptime(s, "%d%b%Y")` reduced to its day count: one or two
day digits, a three-letter month abbreviation, exactly four year digits,
nothing trailing; the day must exist in the month and the year be at least
1, else the constructor raises (`none`). -/
def parseOpdDate (s : String) : Option ℤ :=
  let cs := s.toList
  let dds := cs.takeWhile Char.isDigit
  let rest := cs.dropWhile Char.isDigit
  if dds.length = 0 ∨ 2 < dds.length then none
  else
    match rest with
    | m1 :: m2 :: m3 :: rest2 =>
        match monthOfAbbrev (String.mk [m1, m2, m3]) with
        | none => none
        | some mo =>
            let yds := rest2.takeWhile Char.isDigit
            let rest3 := rest2.dropWhile Char.isDigit
            if yds.length = 4 ∧ rest3 = [] then
              let day := digitsToNat dds
              let year := digitsToNat yds
              if 1 ≤ year ∧ 1 ≤ day ∧ day ≤ daysInMonth year mo then
                some (daysFromCivil year mo day)
              else none
            else none
    | _ => none

/-- Embeds `strftime("%A")`: the weekday name of a day count (1970-01-01 was a
Thursday). -/
def dayName (days : ℤ) : String :=
  match (days.emod 7).toNat with
  | 0 => "Thursday" | 1 => "Friday" | 2 => "Saturday" | 3 => "Sunday"
  | 4 => "Monday" | 5 => "Tuesday" | _ => "Wednesday"

/-! ### `Transformation` (Gtransformation.py) -/

/-- One entry of the `processed` list inside `Transformation.process`:
timestamps are absolute seconds (day count times 86400 plus the intra-day
`ACT_TIME` offset), exact as rationals. -/
structure BRow where
  timestamp : ℚ
  latitude : ℚ
  longitude : ℚ
  trip_id : ℤ
  meters : ℚ
deriving DecidableEq, Repr

/-- A pandas float cell: NaN, plus or minus infinity, or an exact value. -/
inductive PSpeed where
  | nan
  | pinf
  | ninf
  | val (q : ℚ)
deriving DecidableEq, Repr

/-- An output row of `Transformation._append_speed`
(columns timestamp, latitude, longitude, speed, trip_id). -/
structure OutRow where
  timestamp : ℚ
  latitude : ℚ
  longitude : ℚ
  speed : PSpeed
  trip_id : ℤ
deriving DecidableEq, Repr

/-- Embeds `Transformation._combine_date_time`: parse the part of `OPD_DATE`
before the first `:` with `%d%b%Y` and add `ACT_TIME` seconds; any failure
(missing key, non-string date, parse failure, non-numeric offset) raises,
which `process` turns into silently dropping the record. -/
def combine_date_time (r : Record) : Option ℚ :=
  match getField r "OPD_DATE" with
  | some (.vstr s) =>
      match parseOpdDate ((s.splitOn ":").headD "") with
      | none => none
      | some days =>
          match getField r "ACT_TIME" with
          | some (.vint n) => some (86400 * (days : ℚ) + (n : ℚ))
          | some (.vfloat q) => some (86400 * (days : ℚ) + q)
          | _ => none
  | _ => none

/-- Builds the dict appended to `processed` for one validated record; the
fields are numeric for every record that passed validation, so the `none`
branches are unreachable in `process`. -/
def buildRow (r : Record) : Option BRow :=
  match combine_date_time r, getField r "GPS_LATITUDE",
      getField r "GPS_LONGITUDE", getField r "EVENT_NO_TRIP",
      getField r "METERS" with
  | some ts, some lat, some lon, some (.vint trip), some m =>
      match lat, lon, m with
      | .vint la, .vint lo, .vint me =>
          some ⟨ts, (la : ℚ), (lo : ℚ), trip, (me : ℚ)⟩
      | .vint la, .vint lo, .vfloat me => some ⟨ts, (la : ℚ), (lo : ℚ), trip, me⟩
      | .vint la, .vfloat lo, .vint me => some ⟨ts, (la : ℚ), lo, trip, (me : ℚ)⟩
      | .vint la, .vfloat lo, .vfloat me => some ⟨ts, (la : ℚ), lo, trip, me⟩
      | .vfloat la, .vint lo, .vint me => some ⟨ts, la, (lo : ℚ), trip, (me : ℚ)⟩
      | .vfloat la, .vint lo, .vfloat me => some ⟨ts, la, (lo : ℚ), trip, me⟩
      | .vfloat la, .vfloat lo, .vint me => some ⟨ts, la, lo, trip, (me : ℚ)⟩
      | .vfloat la, .vfloat lo, .vfloat me => some ⟨ts, la, lo, trip, me⟩
      | _, _, _ => none
  | _, _, _, _, _ => none

/-- Strict lexicographic order on the sort key `(trip_id, timestamp)`. -/
def rowLT (a b : BRow) : Bool :=
  a.trip_id < b.trip_id || (a.trip_id = b.trip_id && a.timestamp < b.timestamp)

/-- Stable insertion into a sorted list: an element with an equal key goes
after the existing ones, matching a stable ascending sort. -/
def insertSorted (x : BRow) : List BRow → List BRow
  | [] => [x]
  | y :: ys => if rowLT x y then x :: y :: ys else y :: insertSorted x ys

/-- Embeds `df.sort_values(by=["trip_id", "timestamp"])`, ascending and stable. -/
def sortRows (rows : List BRow) : List BRow :=
  rows.foldl (fun acc x => insertSorted x acc) []

/-- Embeds `groupby("trip_id").diff()` after the sort: each row paired with its
distance and time delta to the previous row of the same trip, `none` (NaN)
for the first row of a trip. -/
def withDeltas (prev : Option BRow) : List BRow → List (BRow × Option ℚ × Option ℚ)
  | [] => []
  | r :: rs =>
      let d : Option ℚ × Option ℚ :=
        match prev with
        | some p =>
            if p.trip_id = r.trip_id then
              (some (r.meters - p.meters), some (r.timestamp - p.timestamp))
            else (none, none)
        | none => (none, none)
      (r, d) :: withDeltas (some r) rs

/-- Pandas float division of the delta columns: NaN propagates; division
of a nonzero value by zero gives a signed infinity and of zero by zero
gives NaN (IEEE semantics, no exception); otherwise the exact quotient. -/
def pdiv (d t : Option ℚ) : PSpeed :=
  match d, t with
  | none, _ => .nan
  | some _, none => .nan
  | some d, some t =>
      if t = 0 then
        if 0 < d then .pinf else if d < 0 then .ninf else .nan
      else .val (d / t)

def lookupCarry : List (ℤ × PSpeed) → ℤ → Option PSpeed
  | [], _ => none
  | (t, v) :: rest, trip => if t = trip then some v else lookupCarry rest trip

def setCarry : List (ℤ × PSpeed) → ℤ → PSpeed → List (ℤ × PSpeed)
  | [], trip, v => [(trip, v)]
  | (t, w) :: rest, trip, v =>
      if t = trip then (t, v) :: rest else (t, w) :: setCarry rest trip v

/-- Embeds `groupby("trip_id")["speed"].ffill()`: a NaN speed is replaced by the
most recent non-NaN speed of the same trip group; infinities count as
valid fill values; a leading NaN of a group stays NaN. -/
def ffill (carry : List (ℤ × PSpeed)) :
    List (BRow × PSpeed) → List (BRow × PSpeed)
  | [] => []
  | (r, s) :: rest =>
      let s' := if s = PSpeed.nan then
          (match lookupCarry carry r.trip_id with
           | some v => v
           | none => PSpeed.nan)
        else s
      let carry' := if s' = PSpeed.nan then carry else setCarry carry r.trip_id s'
      (r, s') :: ffill carry' rest

/-- Embeds `Transformation._append_speed`: sort by (trip_id, timestamp), take
per-trip consecutive deltas, divide, forward-fill within trips, and
project the output columns. -/
def append_speed (rows : List BRow) : List OutRow :=
  let sorted := sortRows rows
  let raw := (withDeltas none sorted).map (fun x => (x.1, pdiv x.2.1 x.2.2))
  (ffill [] raw).map
    (fun x => ⟨x.1.timestamp, x.1.latitude, x.1.longitude, x.2, x.1.trip_id⟩)

/-- The record loop of `Transformation.process`: validate each entry with
the stateful validator (uncaught `KeyError`/`TypeError` propagates out of
`process`), drop rejected entries, and drop entries whose timestamp cannot
be constructed. -/
def collectRows (st : List DedupKey) :
    List Record → Except VError (List BRow × List DedupKey)
  | [] => .ok ([], st)
  | e :: rest =>
      match validate_records st e with
      | .error err => .error err
      | .ok (false, st') => collectRows st' rest
      | .ok (true, st') =>
          match buildRow e with
          | none => collectRows st' rest
          | some row =>
              match collectRows st' rest with
              | .error err => .error err
              | .ok (rows, stF) => .ok (row :: rows, stF)

/-- Embeds `Transformation.process`: collect the validated rows, then derive
speeds (an empty collection yields an empty output, matching the early
`return pd.DataFrame()`). -/
def process (st : List DedupKey) (raw : List Record) :
    Except VError (List OutRow × List DedupKey) :=
  match collectRows st raw with
  | .error e => .error e
  | .ok (rows, st') => .ok (append_speed rows, st')

/-! ### `TripInfoBuilder` (Gtransformation.py) -/

/-- One value of `TripInfoBuilder.summary`. -/
structure SummaryRow where
  trip_id : PyVal
  route_id : PyVal
  vehicle_id : PyVal
  service_key : String
  direction : String
deriving DecidableEq, Repr

/-- The builder's `summary` dict: insertion-ordered keys with Python
equality. -/
abbrev SummaryState := List (PyVal × SummaryRow)

def summaryLookup : SummaryState → PyVal → Option SummaryRow
  | [], _ => none
  | (k, v) :: rest, t => if k.pyEq t then some v else summaryLookup rest t

/-- The service classification: weekday name of the parsed operating date,
`Saturday`/`Sunday` kept, all else `Weekday`; any failure (missing or
non-string date, parse error) defaults to `Weekday`. -/
def serviceTypeOf (data : Record) : String :=
  match getField data "OPD_DATE" with
  | some (.vstr s) =>
      match parseOpdDate ((s.splitOn ":").headD "") with
      | some days =>
          let dn := dayName days
          if dn = "Saturday" ∨ dn = "Sunday" then dn else "Weekday"
      | none => "Weekday"
  | _ => "Weekday"

/-- The body of `TripInfoBuilder.build_summary`'s loop for one record:
reads trip, vehicle (via `.get`, defaulting to None) and route (defaulting
to 0), computes the service type, and inserts a summary row with direction
`"Out"` only when the trip key is not yet present. -/
def build_summary_step (st : SummaryState) (data : Record) : SummaryState :=
  let trip := getDefault data "EVENT_NO_TRIP" .vnone
  let vehicle := getDefault data "VEHICLE_ID" .vnone
  let route := getDefault data "ROUTE_ID" (.vint 0)
  let service_type := serviceTypeOf data
  if (summaryLookup st trip).isSome then st
  else st ++ [(trip, ⟨trip, route, vehicle, service_type, "Out"⟩)]

/-- Embeds `TripInfoBuilder.build_summary`: fold the step over the records,
keeping the builder's dict across calls (first-seen-wins lifetime). -/
def build_summary (st : SummaryState) (records : List Record) : SummaryState :=
  records.foldl build_summary_step st

/-! ### `StopEventCleaner` (subscriber3_stopevent.py) -/

/-- One cleaned trip-metadata row, as appended to `cleaned_data` and as a
row of the sink's `trip` table. -/
structure TripRow where
  trip_id : ℤ
  route_id : ℤ
  vehicle_id : ℤ
  service_key : String
  direction : String
deriving DecidableEq, Repr

/-- The stop-event dedup key `(trip_id, vehicle_id)` of raw values. -/
abbrev SeKey := PyVal × PyVal

def seKeyMem (k : SeKey) (s : List SeKey) : Bool :=
  s.any (fun x => x.1.pyEq k.1 && x.2.pyEq k.2)

/-- Embeds `StopEventCleaner._is_valid_record`: the five required fields must be
present and non-None; `int(trip_id)` must parse and be positive;
`int(vehicle_id)` must parse; the per-batch dedup key must be fresh, in
which case it is recorded.  Returns the accept flag and the updated batch
set. -/
def is_valid_record (seen : List SeKey) (record : Record) :
    Bool × List SeKey :=
  let required := ["trip_id", "route_number", "vehicle_id", "service_key",
    "direction"]
  if required.any (fun f =>
      match getField record f with
      | none => true
      | some .vnone => true
      | some _ => false) then (false, seen)
  else
    match (getDefault record "trip_id" .vnone).pyInt with
    | none => (false, seen)
    | some trip_id =>
        if trip_id ≤ 0 then (false, seen)
        else
          match (getDefault record "vehicle_id" .vnone).pyInt with
          | none => (false, seen)
          | some _ =>
              let key : SeKey := (getDefault record "trip_id" .vnone,
                getDefault record "vehicle_id" .vnone)
              if seKeyMem key seen then (false, seen)
              else (true, seen ++ [key])

/-- The conversion in the `try` block of
`StopEventCleaner.process_and_validate` for one accepted record: direction
`"Out"` exactly when `str` of the direction code is `"0"`, else `"Back"`;
service key mapped from `W`/`S`/`U` with default `Weekday`; int
conversions of trip, route and vehicle (any failure is caught, dropping
the record). -/
def cleanRow (record : Record) : Option TripRow :=
  let direction := if (getDefault record "direction" .vnone).pyStr = "0"
    then "Out" else "Back"
  let sk := getDefault record "service_key" (.vstr "W")
  let service_key := if sk.pyEq (.vstr "W") then "Weekday"
    else if sk.pyEq (.vstr "S") then "Saturday"
    else if sk.pyEq (.vstr "U") then "Sunday"
    else "Weekday"
  match getField record "trip_id" with
  | none => none
  | some tv =>
  match tv.pyInt with
  | none => none
  | some trip_id =>
  match (getDefault record "route_number" (.vint 0)).pyInt with
  | none => none
  | some route_id =>
  match getField record "vehicle_id" with
  | none => none
  | some vv =>
  match vv.pyInt with
  | none => none
  | some vehicle_id => some ⟨trip_id, route_id, vehicle_id, service_key, direction⟩

/-- The loop of `StopEventCleaner.process_and_validate` (the per-batch
dedup set is cleared before the loop, so it starts empty): rejected or
unconvertible records are dropped (counted as invalid), accepted ones are
appended in order. -/
def cleanLoop (seen : List SeKey) : List Record → List TripRow
  | [] => []
  | r :: rs =>
      match is_valid_record seen r with
      | (false, seen') => cleanLoop seen' rs
      | (true, seen') =>
          match cleanRow r with
          | none => cleanLoop seen' rs
          | some row => row :: cleanLoop seen' rs

/-- Embeds `StopEventCleaner.process_and_validate`: clears the batch set and runs
the loop; the cleaned rows are the batch's trip-metadata DataFrame. -/
def process_and_validate (records : List Record) : List TripRow :=
  cleanLoop [] records

/-! ### `StopEventPipelineHandler.save_to_postgres` (subscriber3_stopevent.py)
and `DatabaseHandler.save_data` (subcriber.py) -/

/-- The process-wide persistence metrics plus the sink's `trip` table. -/
structure PGState where
  loaded_trip_ids : List ℤ
  total_skipped : ℕ
  total_loaded : ℕ
  trip_table : List TripRow
deriving DecidableEq, Repr

/-- Embeds `cursor.copy_from` into the `trip` table, whose `trip_id` is the
primary key (sink schema): rows are inserted in order and the first row
whose `trip_id` already exists aborts the COPY with a database error
(PostgreSQL COPY has no conflict handling). -/
def copy_from_trip : List TripRow → List TripRow → Except Unit (List TripRow)
  | table, [] => .ok table
  | table, r :: rs =>
      if table.any (fun x => x.trip_id = r.trip_id) then .error ()
      else copy_from_trip (table ++ [r]) rs

/-- Embeds `StopEventPipelineHandler.save_to_postgres`: return on an empty batch;
filter out trip_ids already in the process-wide loaded-id set, adding the
difference to the skipped counter; return if nothing remains; COPY the
remainder and commit, then extend the loaded-id set and the loaded
counter; on a database error roll back (table unchanged, loaded counter
and id set unchanged — the skipped increment, made before the connection,
persists) and log without re-raising. -/
def save_to_postgres (st : PGState) (df : List TripRow) : PGState :=
  if df.isEmpty then st
  else
    let dfIns := df.filter (fun r => !(st.loaded_trip_ids.contains r.trip_id))
    let st1 := { st with total_skipped :=
      st.total_skipped + (df.length - dfIns.length) }
    if dfIns.isEmpty then st1
    else
      match copy_from_trip st1.trip_table dfIns with
      | .ok t2 =>
          { st1 with
            trip_table := t2
            loaded_trip_ids := st1.loaded_trip_ids ++ dfIns.map (fun r => r.trip_id)
            total_loaded := st1.total_loaded + dfIns.length }
      | .error _ => st1

/-- The breadcrumb pipeline's sink: `breadcrumb` table plus `trip` table. -/
structure DB2State where
  breadcrumb_table : List OutRow
  trip_table : List TripRow
deriving Repr

/-- Embeds `DatabaseHandler.save_data`: prepares the trip-metadata buffer but
never executes an insert for it (no `copy_from` on the trip table appears
in the function); bulk-inserts the breadcrumb rows and returns their
count. -/
def save_data (st : DB2State) (validated_df : List OutRow)
    (trip_metadata_df : List SummaryRow) : DB2State × ℕ :=
  let _ := trip_metadata_df
  ({ st with breadcrumb_table := st.breadcrumb_table ++ validated_df },
    validated_df.length)

/-! ### `PubSubProcessor` buffer (subcriber.py) -/

/-- The accumulator state shared by the delivery callback and the periodic
loop: the message buffer and the received counter (the lock serializes
every access, so operations are modelled as atomic steps). -/
structure ProcState (α : Type) where
  buffer : List α
  total_received : ℕ
deriving Repr

/-- Embeds `PubSubProcessor.process_message`'s critical section: append the
decoded message and bump the counter. -/
def process_message {α : Type} (st : ProcState α) (m : α) : ProcState α :=
  { buffer := st.buffer ++ [m], total_received := st.total_received + 1 }

/-- Embeds `PubSubProcessor.process_batch`'s critical section: return without a
batch when the buffer is empty, else atomically take the whole buffer and
clear it. -/
def process_batch {α : Type} (st : ProcState α) :
    Option (List α) × ProcState α :=
  if st.buffer.isEmpty then (none, st)
  else (some st.buffer, { st with buffer := [] })

/-- One atomic operation on the accumulator: a delivery callback append or
a drain (from the size trigger, the periodic tick, or the final drain —
all three route through `process_batch`). -/
inductive PubSubOp (α : Type) where
  | append (m : α)
  | drain

/-- Runs an interleaved sequence of atomic operations, collecting the
batches the drains returned. -/
def runOps {α : Type} :
    ProcState α → List (List α) → List (PubSubOp α) → ProcState α × List (List α)
  | st, ds, [] => (st, ds)
  | st, ds, .append m :: rest => runOps (process_message st m) ds rest
  | st, ds, .drain :: rest =>
      match process_batch st with
      | (none, st') => runOps st' ds rest
      | (some b, st') => runOps st' (ds ++ [b]) rest

/-- The records appended by a sequence of operations, in order. -/
def appendsOf {α : Type} : List (PubSubOp α) → List α
  | [] => []
  | .append m :: rest => m :: appendsOf rest
  | .drain :: rest => appendsOf rest

/-! ## Lemmas about the accumulator -/

lemma runOps_join {α : Type} (ops : List (PubSubOp α)) (st : ProcState α)
    (ds : List (List α)) :
    (runOps st ds ops).2.flatten ++ (runOps st ds ops).1.buffer
      = ds.flatten ++ (st.buffer ++ appendsOf ops) := by
  induction ops generalizing st ds with
  | nil => simp [runOps, appendsOf]
  | cons op rest ih =>
      cases op with
      | append m =>
          rw [runOps, appendsOf, ih]
          simp [process_message]
      | drain =>
          rw [runOps]
          cases hb : st.buffer with
          | nil =>
              rw [show process_batch st = (none, st) by
                simp [process_batch, hb]]
              rw [appendsOf, ih, hb]
          | cons x xs =>
              rw [show process_batch st
                  = (some st.buffer, { st with buffer := [] }) by
                simp [process_batch, hb]]
              rw [appendsOf, ih, hb]
              simp

lemma runOps_append {α : Type} (a b : List (PubSubOp α)) (st : ProcState α)
    (ds : List (List α)) :
    runOps st ds (a ++ b) = runOps (runOps st ds a).1 (runOps st ds a).2 b := by
  induction a generalizing st ds with
  | nil => simp [runOps]
  | cons op rest ih =>
      cases op with
      | append m => rw [List.cons_append, runOps, runOps, ih]
      | drain =>
          rw [List.cons_append, runOps, runOps]
          cases hpb : process_batch st with
          | mk ob st' => cases ob <;> simp <;> rw [ih]

lemma drain_empties {α : Type} (st : ProcState α) (ds : List (List α)) :
    (runOps st ds [PubSubOp.drain]).1.buffer = [] := by
  rw [runOps]
  cases hb : st.buffer with
  | nil =>
      rw [show process_batch st = (none, st) by simp [process_batch, hb]]
      simpa [runOps] using hb
  | cons x xs =>
      rw [show process_batch st = (some st.buffer, { st with buffer := [] }) by
        simp [process_batch, hb]]
      simp [runOps]

/-! ## Claims -/

/-- C1: for every interleaved sequence of atomic `process_message` appends
and `process_batch` drains starting from the empty buffer, the
concatenation of the drained batches followed by the remaining buffer is
exactly the list of appended records in order — so every appended record
is returned by exactly one drain once drained (never lost, never
duplicated across two drains, confirmed also by the per-record count), a
drain leaves the buffer empty, and a record appended after a drain can
only surface in a later drain. -/
theorem c1_drain_exhaustive_exclusive {α : Type} [DecidableEq α]
    (ops : List (PubSubOp α)) :
    (runOps (⟨[], 0⟩ : ProcState α) [] ops).2.flatten
        ++ (runOps (⟨[], 0⟩ : ProcState α) [] ops).1.buffer = appendsOf ops
    ∧ (∀ m : α, ((runOps (⟨[], 0⟩ : ProcState α) [] ops).2.flatten
        ++ (runOps (⟨[], 0⟩ : ProcState α) [] ops).1.buffer).count m
          = (appendsOf ops).count m)
    ∧ (runOps (⟨[], 0⟩ : ProcState α) [] (ops ++ [.drain])).1.buffer = [] := by
  have hj := runOps_join ops (⟨[], 0⟩ : ProcState α) []
  simp only [List.flatten_nil, List.nil_append] at hj
  refine ⟨hj, fun m => by rw [hj], ?_⟩
  rw [runOps_append]
  exact drain_empties _ _

/-- The three breadcrumb records of end-to-end scenario A: trip 100,
odometer readings 0, 50, 120 meters at activity times 0, 10, 30 seconds of
operating date 25DEC2022, with in-range coordinates and distinct stop
events. -/
def c2rec (stop act : ℤ) (meters : ℚ) : Record :=
  [("EVENT_NO_TRIP", .vint 100), ("OPD_DATE", .vstr "25DEC2022:00:00:00"),
   ("ACT_TIME", .vint act), ("VEHICLE_ID", .vint 1),
   ("GPS_LATITUDE", .vfloat 45.5), ("GPS_LONGITUDE", .vfloat (-122.5)),
   ("METERS", .vfloat meters), ("EVENT_NO_STOP", .vint stop)]

def c2batch : List Record := [c2rec 1 0 0, c2rec 2 10 50, c2rec 3 30 120]

set_option maxRecDepth 3000 in
/-- C2: processing the scenario-A batch through the transformer (fresh
validator state) accepts all three records and outputs them sorted by
(trip_id, timestamp) with speeds NaN (null), 5.0 and 3.5 m/s: each
non-first sample's speed is the odometer delta over the time delta to the
previous sample of the trip, and the trip's first sample stays null after
the forward fill (no backward fill). -/
theorem c2_scenario_a_speeds :
    (process [] c2batch).map
        (fun p => p.1.map (fun r => (r.trip_id, r.timestamp, r.speed)))
      = .ok [(100, 1671926400, PSpeed.nan), (100, 1671926410, PSpeed.val 5),
          (100, 1671926430, PSpeed.val 3.5)] := by with_unfolding_all rfl

/-- A breadcrumb row for the C9 input: two samples of trip 1 at the same
timestamp with odometer readings 0 and 100 meters. -/
def c9row (m : ℚ) : BRow := ⟨100, 45.5, -122.5, 1, m⟩

/-- C9 counterexample: on two samples of the same trip with a zero time
delta and a positive odometer delta, `_append_speed` derives the pandas
float division value `+inf` for the second sample — an infinite numeric
value, not the undefined (NaN/null) value the claim requires. -/
theorem c9_counterexample :
    (append_speed [c9row 0, c9row 100]).map (fun r => r.speed)
        = [PSpeed.nan, PSpeed.pinf]
    ∧ PSpeed.pinf ≠ PSpeed.nan := by
  refine ⟨by with_unfolding_all rfl, by decide⟩

/-- The non-strict lexicographic order on the sort key
`(trip_id, timestamp)`. -/
def rowKeyLE (a b : BRow) : Prop :=
  a.trip_id < b.trip_id ∨ (a.trip_id = b.trip_id ∧ a.timestamp ≤ b.timestamp)

lemma rowKeyLE_of_rowLT {a b : BRow} (h : rowLT a b = true) : rowKeyLE a b := by
  simp only [rowLT, Bool.or_eq_true, Bool.and_eq_true, decide_eq_true_eq] at h
  rcases h with h | ⟨h1, h2⟩
  · exact Or.inl h
  · exact Or.inr ⟨h1, le_of_lt h2⟩

lemma rowKeyLE_of_not_rowLT {a b : BRow} (h : rowLT a b = false) : rowKeyLE b a := by
  simp only [rowLT, Bool.or_eq_false_iff, Bool.and_eq_false_iff,
    decide_eq_false_iff_not, not_lt] at h
  obtain ⟨h1, h2⟩ := h
  rcases lt_or_eq_of_le h1 with hlt | heq
  · exact Or.inl hlt
  · rcases h2 with h2 | h2
    · exact absurd heq.symm h2
    · exact Or.inr ⟨heq, h2⟩

lemma chain_insertSorted (x : BRow) :
    ∀ l : List BRow, List.Chain' rowKeyLE l →
      List.Chain' rowKeyLE (insertSorted x l) := by
  intro l
  induction l with
  | nil => intro _; simp [insertSorted]
  | cons y ys ih =>
      intro h
      rw [insertSorted]
      cases hxy : rowLT x y with
      | true =>
          simp only [if_pos rfl, hxy, if_true]
          exact List.chain'_cons.mpr ⟨rowKeyLE_of_rowLT hxy, h⟩
      | false =>
          simp only [hxy, Bool.false_eq_true, if_false]
          have hys : List.Chain' rowKeyLE ys := h.tail
          refine List.chain'_cons'.mpr ⟨?_, ih hys⟩
          intro z hz
          cases ys with
          | nil =>
              simp [insertSorted] at hz
              subst hz
              exact rowKeyLE_of_not_rowLT hxy
          | cons w ws =>
              rw [insertSorted] at hz
              cases hxw : rowLT x w with
              | true =>
                  simp only [hxw, if_true] at hz
                  simp at hz
                  subst hz
                  exact rowKeyLE_of_not_rowLT hxy
              | false =>
                  simp only [hxw, Bool.false_eq_true, if_false] at hz
                  simp at hz
                  subst hz
                  exact (List.chain'_cons.mp h).1

lemma chain_sortRows_foldl :
    ∀ (rows : List BRow) (acc : List BRow), List.Chain' rowKeyLE acc →
      List.Chain' rowKeyLE (rows.foldl (fun a x => insertSorted x a) acc) := by
  intro rows
  induction rows with
  | nil => intro acc h; simpa using h
  | cons r rs ih =>
      intro acc h
      exact ih (insertSorted r acc) (chain_insertSorted r acc h)

lemma chain_sortRows (rows : List BRow) :
    List.Chain' rowKeyLE (sortRows rows) :=
  chain_sortRows_foldl rows [] (by simp)

lemma insertSorted_length (x : BRow) :
    ∀ l : List BRow, (insertSorted x l).length = l.length + 1 := by
  intro l
  induction l with
  | nil => rfl
  | cons y ys ih =>
      rw [insertSorted]
      cases hxy : rowLT x y with
      | true => simp [hxy]
      | false => simp [hxy, ih]

lemma sortRows_length_foldl :
    ∀ (rows : List BRow) (acc : List BRow),
      (rows.foldl (fun a x => insertSorted x a) acc).length
        = acc.length + rows.length := by
  intro rows
  induction rows with
  | nil => intro acc; simp
  | cons r rs ih =>
      intro acc
      rw [List.foldl_cons, ih (insertSorted r acc), insertSorted_length,
        List.length_cons]
      omega

lemma sortRows_length (rows : List BRow) :
    (sortRows rows).length = rows.length := by
  rw [sortRows, sortRows_length_foldl]
  simp

lemma withDeltas_length :
    ∀ (prev : Option BRow) (l : List BRow),
      (withDeltas prev l).length = l.length := by
  intro prev l
  induction l generalizing prev with
  | nil => rfl
  | cons r rs ih => simp only [withDeltas, List.length_cons, ih]

lemma ffill_length :
    ∀ (carry : List (ℤ × PSpeed)) (l : List (BRow × PSpeed)),
      (ffill carry l).length = l.length := by
  intro carry l
  induction l generalizing carry with
  | nil => rfl
  | cons p ps ih => rw [ffill]; simp [ih]

lemma pdiv_zero_not_finite (d q : ℚ) : pdiv (some d) (some 0) ≠ PSpeed.val q := by
  by_cases h1 : 0 < d
  · simp [pdiv, h1]
  · by_cases h2 : d < 0
    · simp [pdiv, h1, h2]
    · simp [pdiv, h1, h2]

/-- C9 amended: after the ascending sort by (trip_id, timestamp) any two
consecutive samples of the same trip have a non-negative time delta (a
negative delta never reaches the division); a zero time delta yields a
signed infinity or NaN — never a finite numeric speed and never an
exception — and the batch continues with every row still present in the
output. -/
theorem c9_amended_zero_delta (rows : List BRow) :
    List.Chain'
        (fun a b : BRow => a.trip_id = b.trip_id → a.timestamp ≤ b.timestamp)
        (sortRows rows)
    ∧ (append_speed rows).length = rows.length
    ∧ ∀ d q : ℚ, pdiv (some d) (some 0) ≠ PSpeed.val q := by
  refine ⟨?_, ?_, fun d q => pdiv_zero_not_finite d q⟩
  · refine (chain_sortRows rows).imp ?_
    intro a b hab heq
    rcases hab with h | ⟨_, h⟩
    · exact absurd heq (ne_of_lt h)
    · exact h
  · rw [append_speed]
    simp [ffill_length, withDeltas_length, sortRows_length]

/-- C9 amended, instantiated at the counterexample input: both rows
survive and the zero-delta division is not a finite value. -/
theorem c9_amended_zero_delta_witness :
    (append_speed [c9row 0, c9row 100]).length = 2
    ∧ pdiv (some 100) (some 0) ≠ PSpeed.val 5 :=
  ⟨(c9_amended_zero_delta [c9row 0, c9row 100]).2.1,
    (c9_amended_zero_delta [c9row 0, c9row 100]).2.2 100 5⟩

/-- A record holding all seven required breadcrumb fields with values that
pass every stateless check, but no `EVENT_NO_STOP` field. -/
def c10rec : Record :=
  [("EVENT_NO_TRIP", .vint 5), ("OPD_DATE", .vstr "25DEC2022:00:00:00"),
   ("ACT_TIME", .vint 100), ("VEHICLE_ID", .vint 1),
   ("GPS_LATITUDE", .vfloat 45.5), ("GPS_LONGITUDE", .vfloat (-122.5)),
   ("METERS", .vint 10)]

/-- C10: `validate_records` is not total over records passing the earlier
checks: on a record with all seven required fields (the required-field
check succeeds) but no `EVENT_NO_STOP`, the duplicate check's direct
`record['EVENT_NO_STOP']` access raises a `KeyError` that the
`except AssertionError` handler does not catch, so for every dedup-set
state the call propagates the error instead of returning an accept or
reject outcome. -/
theorem c10_missing_stop_raises (st : List DedupKey) :
    validate_records st c10rec = .error .keyError
    ∧ validate_required_fields c10rec = .ok () := by
  constructor
  · with_unfolding_all rfl
  · with_unfolding_all rfl

/-! ## Lemmas about the persistence step -/

lemma save_fresh (st : PGState) (m : TripRow)
    (h1 : m.trip_id ∉ st.loaded_trip_ids)
    (h2 : ∀ x ∈ st.trip_table, x.trip_id ≠ m.trip_id) :
    save_to_postgres st [m]
      = { loaded_trip_ids := st.loaded_trip_ids ++ [m.trip_id],
          total_skipped := st.total_skipped,
          total_loaded := st.total_loaded + 1,
          trip_table := st.trip_table ++ [m] } := by
  have hany : (st.trip_table.any fun x => decide (x.trip_id = m.trip_id)) = false := by
    simp only [List.any_eq_false, decide_eq_true_eq]
    exact h2
  have hcopy : copy_from_trip st.trip_table [m] = .ok (st.trip_table ++ [m]) := by
    simp [copy_from_trip, hany]
  simp [save_to_postgres, hcopy, h1]

lemma save_dup (st : PGState) (m : TripRow)
    (h1 : m.trip_id ∈ st.loaded_trip_ids) :
    save_to_postgres st [m] = { st with total_skipped := st.total_skipped + 1 } := by
  simp [save_to_postgres, h1, List.filter]

/-- C3: loading the same trip-metadata row in two separate batches leaves
exactly one row for its trip_id in the sink's trip table; the second load
is filtered out by the process-wide loaded-id set, incrementing the
skipped counter by the one filtered row while the loaded counter does not
move (it moved only on the first load). -/
theorem c3_loader_idempotent (st : PGState) (m : TripRow)
    (h1 : m.trip_id ∉ st.loaded_trip_ids)
    (h2 : ∀ x ∈ st.trip_table, x.trip_id ≠ m.trip_id) :
    ((save_to_postgres (save_to_postgres st [m]) [m]).trip_table.filter
        (fun x => x.trip_id = m.trip_id)).length = 1
    ∧ (save_to_postgres (save_to_postgres st [m]) [m]).total_skipped
        = (save_to_postgres st [m]).total_skipped + 1
    ∧ (save_to_postgres (save_to_postgres st [m]) [m]).total_loaded
        = (save_to_postgres st [m]).total_loaded
    ∧ (save_to_postgres st [m]).total_loaded = st.total_loaded + 1 := by
  have e1 := save_fresh st m h1 h2
  have hmem : m.trip_id ∈ (save_to_postgres st [m]).loaded_trip_ids := by
    rw [e1]; simp
  have e2 := save_dup (save_to_postgres st [m]) m hmem
  rw [e2, e1]
  refine ⟨?_, by simp, by simp, by simp⟩
  have hnil : st.trip_table.filter (fun x => decide (x.trip_id = m.trip_id)) = [] := by
    rw [List.filter_eq_nil_iff]
    intro a ha
    simpa using h2 a ha
  simp [List.filter_append, hnil]

def c3row : TripRow := ⟨1, 2, 3, "Weekday", "Out"⟩

/-- C3 witness: the double load of a concrete row from the empty state. -/
theorem c3_loader_idempotent_witness :
    ((save_to_postgres (save_to_postgres ⟨[], 0, 0, []⟩ [c3row]) [c3row]).trip_table.filter
        (fun x => x.trip_id = c3row.trip_id)).length = 1
    ∧ (save_to_postgres (save_to_postgres ⟨[], 0, 0, []⟩ [c3row]) [c3row]).total_skipped
        = (save_to_postgres ⟨[], 0, 0, []⟩ [c3row]).total_skipped + 1
    ∧ (save_to_postgres (save_to_postgres ⟨[], 0, 0, []⟩ [c3row]) [c3row]).total_loaded
        = (save_to_postgres ⟨[], 0, 0, []⟩ [c3row]).total_loaded
    ∧ (save_to_postgres ⟨[], 0, 0, []⟩ [c3row]).total_loaded = (0 : ℕ) + 1 :=
  c3_loader_idempotent ⟨[], 0, 0, []⟩ c3row (by simp) (by simp)

def c4r7 : TripRow := ⟨7, 1, 1, "Weekday", "Out"⟩

def c4r7b : TripRow := ⟨7, 2, 2, "Weekday", "Back"⟩

def c4r8 : TripRow := ⟨8, 1, 1, "Weekday", "Out"⟩

/-- The sink already holds a row for trip 7 while the in-memory loaded-id
set is empty — the state after a process restart. -/
def c4st : PGState := ⟨[], 0, 0, [c4r7]⟩

/-- C4 counterexample: inserting a batch whose first row's trip_id
conflicts with an existing primary-key row is not treated as a row-level
no-op: the COPY fails, the whole batch is rolled back — the
non-conflicting trip 8 row does not commit and nothing is counted as
loaded — contradicting "the row is skipped, the rest of the batch still
commits". -/
theorem c4_conflict_counterexample :
    (save_to_postgres c4st [c4r7b, c4r8]).trip_table = [c4r7]
    ∧ (save_to_postgres c4st [c4r7b, c4r8]).total_loaded = 0 := by
  refine ⟨by with_unfolding_all rfl, by with_unfolding_all rfl⟩

/-- C4 amended: a primary-key conflict during the trip-metadata COPY
aborts and rolls back the entire batch — the trip table, the loaded
counter and the loaded-id set are unchanged — and the error is caught and
logged rather than propagated (the function still returns a state);
conflicts are avoided in normal operation only by the in-memory loaded-id
filter.  In the part2 breadcrumb pipeline, `save_data` prepares the
trip-metadata buffer but never inserts it: its trip table is unchanged by
every call. -/
theorem c4_conflict_aborts_batch (st : PGState) (df : List TripRow)
    (h : copy_from_trip st.trip_table
        (df.filter (fun r => !(st.loaded_trip_ids.contains r.trip_id))) = .error ())
    (st2 : DB2State) (vdf : List OutRow) (tdf : List SummaryRow) :
    (save_to_postgres st df).trip_table = st.trip_table
    ∧ (save_to_postgres st df).total_loaded = st.total_loaded
    ∧ (save_to_postgres st df).loaded_trip_ids = st.loaded_trip_ids
    ∧ (save_data st2 vdf tdf).1.trip_table = st2.trip_table := by
  have hdf : df.isEmpty = false := by
    cases hh : df.isEmpty
    · rfl
    · rw [List.isEmpty_iff] at hh
      rw [hh] at h
      simp [copy_from_trip] at h
  have hins : (df.filter (fun r => !(st.loaded_trip_ids.contains r.trip_id))).isEmpty
      = false := by
    cases hh : (df.filter (fun r => !(st.loaded_trip_ids.contains r.trip_id))).isEmpty
    · rfl
    · rw [List.isEmpty_iff] at hh
      rw [hh] at h
      simp [copy_from_trip] at h
  rw [save_to_postgres]
  simp only [hdf, Bool.false_eq_true, if_false]
  simp only [hins, Bool.false_eq_true, if_false]
  rw [h]
  exact ⟨rfl, rfl, rfl, rfl⟩

/-- C4 witness: the amended statement at the concrete conflicting batch. -/
theorem c4_conflict_aborts_batch_witness :
    (save_to_postgres c4st [c4r7b, c4r8]).trip_table = c4st.trip_table
    ∧ (save_to_postgres c4st [c4r7b, c4r8]).total_loaded = c4st.total_loaded
    ∧ (save_to_postgres c4st [c4r7b, c4r8]).loaded_trip_ids = c4st.loaded_trip_ids
    ∧ (save_data ⟨[], []⟩ [] []).1.trip_table = ([] : List TripRow) :=
  c4_conflict_aborts_batch c4st [c4r7b, c4r8] (by with_unfolding_all rfl) ⟨[], []⟩ [] []

/-! ## Lemmas about the breadcrumb validator -/

lemma validate_ok_true_iff (st st' : List DedupKey) (r : Record) :
    validate_records st r = .ok (true, st') ↔ run_validation st r = .ok st' := by
  rw [validate_records]
  cases hr : run_validation st r with
  | ok s => simp
  | error e => cases e <;> simp

lemma run_validation_ok_inv {st st' : List DedupKey} {r : Record}
    (h : run_validation st r = .ok st') :
    validate_required_fields r = .ok () ∧ gps_validator r = .ok ()
    ∧ validate_speed_plausibility r = .ok () ∧ validate_vehicle_data r = .ok ()
    ∧ validate_temporal_data r = .ok ()
    ∧ duplicates_check st r = .ok st' := by
  rw [run_validation] at h
  cases h1 : validate_required_fields r with
  | error e => rw [h1] at h; cases h
  | ok u1 =>
  cases u1
  rw [h1] at h
  cases h2 : gps_validator r with
  | error e => rw [h2] at h; cases h
  | ok u2 =>
  cases u2
  rw [h2] at h
  cases h3 : validate_speed_plausibility r with
  | error e => rw [h3] at h; cases h
  | ok u3 =>
  cases u3
  rw [h3] at h
  cases h4 : validate_vehicle_data r with
  | error e => rw [h4] at h; cases h
  | ok u4 =>
  cases u4
  rw [h4] at h
  cases h5 : validate_temporal_data r with
  | error e => rw [h5] at h; cases h
  | ok u5 =>
  cases u5
  rw [h5] at h
  rw [check_geographic_jump] at h
  exact ⟨rfl, rfl, rfl, rfl, rfl, h⟩

lemma duplicates_check_ok_inv {st st' : List DedupKey} {r : Record}
    (h : duplicates_check st r = .ok st') :
    ∃ v1 v2 v3 v4 v5 : PyVal,
      getItem r "VEHICLE_ID" = .ok v1 ∧ getItem r "EVENT_NO_TRIP" = .ok v2
      ∧ getItem r "EVENT_NO_STOP" = .ok v3 ∧ getItem r "ACT_TIME" = .ok v4
      ∧ getItem r "METERS" = .ok v5
      ∧ keyMem (v1, v2, v3, v4, v5) st = false
      ∧ st' = (v1, v2, v3, v4, v5) :: st := by
  rw [duplicates_check] at h
  cases g1 : getItem r "VEHICLE_ID" with
  | error e => rw [g1] at h; cases h
  | ok v1 =>
  rw [g1] at h; dsimp only at h
  cases g2 : getItem r "EVENT_NO_TRIP" with
  | error e => rw [g2] at h; cases h
  | ok v2 =>
  rw [g2] at h; dsimp only at h
  cases g3 : getItem r "EVENT_NO_STOP" with
  | error e => rw [g3] at h; cases h
  | ok v3 =>
  rw [g3] at h; dsimp only at h
  cases g4 : getItem r "ACT_TIME" with
  | error e => rw [g4] at h; cases h
  | ok v4 =>
  rw [g4] at h; dsimp only at h
  cases g5 : getItem r "METERS" with
  | error e => rw [g5] at h; cases h
  | ok v5 =>
  rw [g5] at h; dsimp only at h
  cases hk : keyMem (v1, v2, v3, v4, v5) st <;> rw [hk] at h
  · simp only [Bool.false_eq_true, if_false] at h
    cases h
    exact ⟨v1, v2, v3, v4, v5, rfl, rfl, rfl, rfl, rfl, hk, rfl⟩
  · simp only [if_true] at h
    cases h

lemma keyEq_refl (k : DedupKey) : keyEq k k = true := by
  simp [keyEq, PyVal.pyEq_refl]

lemma keyMem_cons_self (k : DedupKey) (st : List DedupKey) :
    keyMem k (k :: st) = true := by
  simp [keyMem, keyEq_refl]

lemma duplicates_check_dup {r : Record} {v1 v2 v3 v4 v5 : PyVal}
    {st2 : List DedupKey}
    (g1 : getItem r "VEHICLE_ID" = .ok v1)
    (g2 : getItem r "EVENT_NO_TRIP" = .ok v2)
    (g3 : getItem r "EVENT_NO_STOP" = .ok v3)
    (g4 : getItem r "ACT_TIME" = .ok v4)
    (g5 : getItem r "METERS" = .ok v5)
    (hm : keyMem (v1, v2, v3, v4, v5) st2 = true) :
    duplicates_check st2 r = .error (.fail "Duplicate") := by
  rw [duplicates_check, g1]
  dsimp only
  rw [g2]
  dsimp only
  rw [g3]
  dsimp only
  rw [g4]
  dsimp only
  rw [g5]
  dsimp only
  rw [hm]
  simp

lemma run_validation_second {r : Record} {st2 : List DedupKey}
    (h1 : validate_required_fields r = .ok ())
    (h2 : gps_validator r = .ok ())
    (h3 : validate_speed_plausibility r = .ok ())
    (h4 : validate_vehicle_data r = .ok ())
    (h5 : validate_temporal_data r = .ok ())
    (hdup : duplicates_check st2 r = .error (.fail "Duplicate")) :
    run_validation st2 r = .error (.fail "Duplicate") := by
  rw [run_validation, h1]
  dsimp only
  rw [h2]
  dsimp only
  rw [h3]
  dsimp only
  rw [h4]
  dsimp only [check_geographic_jump]
  rw [h5]
  dsimp only
  exact hdup

/-- The stop-event record of end-to-end scenario C: trip 55, vehicle 9. -/
def seRec55 : Record :=
  [("trip_id", .vint 55), ("route_number", .vint 9), ("vehicle_id", .vint 9),
   ("service_key", .vstr "W"), ("direction", .vstr "0")]

/-- C5: duplicate detection is idempotent within one dedup scope.  For the
breadcrumb validator: whenever a record is accepted from state `st`
(recording its dedup key into `st'`), submitting the same record again is
rejected — `validate_records` returns `false` with the state unchanged and
the failing check is tagged `Duplicate` — so the same key yields exactly
one acceptance and one duplicate rejection over the validator's lifetime.
For the stop-event cleaner: two records with identical
(trip_id 55, vehicle_id 9) in one batch yield exactly one metadata row for
trip 55, the second being rejected by the per-batch set. -/
theorem c5_dedup_idempotent (st st' : List DedupKey) (r : Record)
    (h : validate_records st r = .ok (true, st')) :
    validate_records st' r = .ok (false, st')
    ∧ run_validation st' r = .error (.fail "Duplicate")
    ∧ process_and_validate [seRec55, seRec55]
        = [⟨55, 9, 9, "Weekday", "Out"⟩] := by
  have hrun := (validate_ok_true_iff st st' r).mp h
  obtain ⟨h1, h2, h3, h4, h5, hdup⟩ := run_validation_ok_inv hrun
  obtain ⟨v1, v2, v3, v4, v5, g1, g2, g3, g4, g5, hk, hst⟩ :=
    duplicates_check_ok_inv hdup
  have hdup2 : duplicates_check st' r = .error (.fail "Duplicate") := by
    subst hst
    exact duplicates_check_dup g1 g2 g3 g4 g5 (keyMem_cons_self _ _)
  have hrun2 := run_validation_second h1 h2 h3 h4 h5 hdup2
  refine ⟨?_, hrun2, by with_unfolding_all rfl⟩
  rw [validate_records, hrun2]

/-- A concrete valid breadcrumb record for the C5 witness. -/
def c5rec : Record :=
  [("EVENT_NO_TRIP", .vint 200), ("OPD_DATE", .vstr "01MAY2023:00:00:00"),
   ("ACT_TIME", .vint 50), ("VEHICLE_ID", .vint 7),
   ("GPS_LATITUDE", .vfloat 45.3), ("GPS_LONGITUDE", .vfloat (-123)),
   ("METERS", .vint 500), ("EVENT_NO_STOP", .vint 9)]

def c5key : DedupKey := (.vint 7, .vint 200, .vint 9, .vint 50, .vint 500)

/-- C5 witness: the concrete record is accepted once and its resubmission
is rejected with the dedup set unchanged. -/
theorem c5_dedup_idempotent_witness :
    validate_records [] c5rec = .ok (true, [c5key])
    ∧ validate_records [c5key] c5rec = .ok (false, [c5key]) :=
  ⟨by with_unfolding_all rfl,
    (c5_dedup_idempotent [] [c5key] c5rec (by with_unfolding_all rfl)).1⟩

lemma gps_ok_inv {r : Record} (h : gps_validator r = .ok ()) :
    ∃ lat lon : ℚ, getNum r "GPS_LATITUDE" = .ok lat
      ∧ getNum r "GPS_LONGITUDE" = .ok lon
      ∧ 45.2 ≤ lat ∧ lat ≤ 45.7 ∧ -124.0 ≤ lon ∧ lon ≤ -122.0
      ∧ 1 ≤ |lat| ∧ 1 ≤ |lon| := by
  rw [gps_validator] at h
  cases hl : getNum r "GPS_LATITUDE" with
  | error e => rw [hl] at h; cases h
  | ok lat =>
  rw [hl] at h
  cases hlon : getNum r "GPS_LONGITUDE" with
  | error e => rw [hlon] at h; dsimp only at h; cases h
  | ok lon =>
  rw [hlon] at h
  dsimp only at h
  split_ifs at h with hc1 hc2 hc3
  exact ⟨lat, lon, rfl, rfl, hc1.1, hc1.2, hc2.1, hc2.2, hc3.1, hc3.2⟩

/-- C6: every record the breadcrumb validator accepts has a numeric
latitude in [45.2, 45.7] and longitude in [-124.0, -122.0], and both
coordinates have absolute value at least 1, so no accepted record carries
a near-zero sentinel coordinate. -/
theorem c6_accepted_geofence (st st' : List DedupKey) (r : Record)
    (h : validate_records st r = .ok (true, st')) :
    ∃ lat lon : ℚ, getNum r "GPS_LATITUDE" = .ok lat
      ∧ getNum r "GPS_LONGITUDE" = .ok lon
      ∧ 45.2 ≤ lat ∧ lat ≤ 45.7 ∧ -124.0 ≤ lon ∧ lon ≤ -122.0
      ∧ 1 ≤ |lat| ∧ 1 ≤ |lon| := by
  have hrun := (validate_ok_true_iff st st' r).mp h
  obtain ⟨_, h2, _, _, _, _⟩ := run_validation_ok_inv hrun
  exact gps_ok_inv h2

/-- A concrete valid breadcrumb record for the C6 witness. -/
def c6rec : Record :=
  [("EVENT_NO_TRIP", .vint 300), ("OPD_DATE", .vstr "02MAY2023:00:00:00"),
   ("ACT_TIME", .vint 60), ("VEHICLE_ID", .vint 8),
   ("GPS_LATITUDE", .vfloat 45.6), ("GPS_LONGITUDE", .vfloat (-122.7)),
   ("METERS", .vint 600), ("EVENT_NO_STOP", .vint 11)]

/-- C6 witness: the geofence bounds hold for a concrete accepted record. -/
theorem c6_accepted_geofence_witness :
    ∃ lat lon : ℚ, getNum c6rec "GPS_LATITUDE" = .ok lat
      ∧ getNum c6rec "GPS_LONGITUDE" = .ok lon
      ∧ 45.2 ≤ lat ∧ lat ≤ 45.7 ∧ -124.0 ≤ lon ∧ lon ≤ -122.0
      ∧ 1 ≤ |lat| ∧ 1 ≤ |lon| :=
  c6_accepted_geofence []
    [(.vint 8, .vint 300, .vint 11, .vint 60, .vint 600)] c6rec
    (by with_unfolding_all rfl)

/-! ## Lemmas about the trip summary builder and the stop-event cleaner -/

lemma summaryLookup_append {st : SummaryState} (p : PyVal × SummaryRow)
    {t : PyVal} {row : SummaryRow} (h : summaryLookup st t = some row) :
    summaryLookup (st ++ [p]) t = some row := by
  induction st with
  | nil => simp [summaryLookup] at h
  | cons q qs ih =>
      obtain ⟨k, v⟩ := q
      by_cases hk : PyVal.pyEq k t = true
      · rw [summaryLookup, if_pos hk] at h
        rw [List.cons_append, summaryLookup, if_pos hk]
        exact h
      · rw [summaryLookup, if_neg hk] at h
        rw [List.cons_append, summaryLookup, if_neg hk]
        exact ih h

/-- C7: trip metadata is first-seen-wins — once a trip key is present in
the builder's summary dict, feeding any further records (in particular one
with the same trip_id and a different route_id) never changes the stored
row, within the builder's lifetime. -/
theorem c7_first_seen_wins (st : SummaryState) (recs : List Record) (t : PyVal)
    (row : SummaryRow) (h : summaryLookup st t = some row) :
    summaryLookup (build_summary st recs) t = some row := by
  induction recs generalizing st with
  | nil => exact h
  | cons d ds ih =>
      rw [build_summary, List.foldl_cons]
      apply ih
      rw [build_summary_step]
      by_cases hp : (summaryLookup st (getDefault d "EVENT_NO_TRIP" .vnone)).isSome
      · rw [if_pos hp]
        exact h
      · rw [if_neg hp]
        exact summaryLookup_append _ h

lemma build_summary_step_direction (st : SummaryState) (d : Record)
    (h : ∀ p ∈ st, p.2.direction = "Out") :
    ∀ p ∈ build_summary_step st d, p.2.direction = "Out" := by
  rw [build_summary_step]
  by_cases hp : (summaryLookup st (getDefault d "EVENT_NO_TRIP" .vnone)).isSome
  · rw [if_pos hp]; exact h
  · rw [if_neg hp]
    intro p hpmem
    rcases List.mem_append.mp hpmem with hin | hnew
    · exact h p hin
    · rw [List.mem_singleton] at hnew
      subst hnew
      rfl

lemma build_summary_direction (recs : List Record) :
    ∀ st : SummaryState, (∀ p ∈ st, p.2.direction = "Out") →
      ∀ p ∈ build_summary st recs, p.2.direction = "Out" := by
  induction recs with
  | nil => intro st h; exact h
  | cons d ds ih =>
      intro st h
      rw [build_summary, List.foldl_cons]
      exact ih (build_summary_step st d) (build_summary_step_direction st d h)

lemma cleanRow_direction {r : Record} {row : TripRow} (h : cleanRow r = some row) :
    row.direction
      = (if (getDefault r "direction" .vnone).pyStr = "0" then "Out" else "Back") := by
  rw [cleanRow] at h
  split at h
  · cases h
  · split at h
    · cases h
    · split at h
      · cases h
      · split at h
        · cases h
        · split at h
          · cases h
          · cases h
            rfl

def c7recA : Record :=
  [("EVENT_NO_TRIP", .vint 1), ("ROUTE_ID", .vint 10), ("VEHICLE_ID", .vint 3),
   ("OPD_DATE", .vstr "25DEC2022:00:00:00")]

def c7recB : Record :=
  [("EVENT_NO_TRIP", .vint 1), ("ROUTE_ID", .vint 99), ("VEHICLE_ID", .vint 4),
   ("OPD_DATE", .vstr "26DEC2022:00:00:00")]

/-- The summary row the builder records for `c7recA` (25DEC2022 is a
Sunday). -/
def c7rowA : SummaryRow := ⟨.vint 1, .vint 10, .vint 3, "Sunday", "Out"⟩

/-- C7 witness: after recording trip 1 with route 10, feeding a second
record for trip 1 with route 99 leaves the stored row unchanged. -/
theorem c7_first_seen_wins_witness :
    summaryLookup (build_summary (build_summary [] [c7recA]) [c7recB]) (.vint 1)
      = some c7rowA :=
  c7_first_seen_wins (build_summary [] [c7recA]) [c7recB] (.vint 1) c7rowA
    (by with_unfolding_all rfl)

/-- C8: every row the breadcrumb `TripInfoBuilder` produces carries
direction `"Out"` (its input records carry no direction code), and every
row the stop-event cleaner produces from a record carrying a direction
code maps code `"0"` to `"Out"` and any other code value to `"Back"`. -/
theorem c8_direction_mapping (st : SummaryState) (recs : List Record)
    (hst : ∀ p ∈ st, p.2.direction = "Out")
    (r : Record) (row : TripRow) (hr : cleanRow r = some row) :
    (∀ p ∈ build_summary st recs, p.2.direction = "Out")
    ∧ row.direction
        = (if (getDefault r "direction" .vnone).pyStr = "0" then "Out"
           else "Back") :=
  ⟨build_summary_direction recs st hst, cleanRow_direction hr⟩

/-- A stop-event record with explicit direction code "1". -/
def c8rec : Record :=
  [("trip_id", .vint 70), ("route_number", .vint 4), ("vehicle_id", .vint 2),
   ("service_key", .vstr "S"), ("direction", .vstr "1")]

def c8bc : Record :=
  [("EVENT_NO_TRIP", .vint 2), ("OPD_DATE", .vstr "27DEC2022:00:00:00")]

/-- C8 witness: a builder run yields only "Out" rows, and the concrete
stop-event record with direction code "1" is cleaned to "Back". -/
theorem c8_direction_mapping_witness :
    (∀ p ∈ build_summary [] [c8bc], p.2.direction = "Out")
    ∧ (⟨70, 4, 2, "Saturday", "Back"⟩ : TripRow).direction
        = (if (getDefault c8rec "direction" .vnone).pyStr = "0" then "Out"
           else "Back") :=
  c8_direction_mapping [] [c8bc] (by intro p hp; cases hp) c8rec
    ⟨70, 4, 2, "Saturday", "Back"⟩ (by with_unfolding_all rfl)

end Trimet
